import Mathlib

/-
Shallow embedding of the nexus-wellness-io client (a browser dashboard that
fetches alerts, locations and sensor readings over HTTP and renders lists and
aggregates).  Numbers that are JS floats are modelled as exact rationals;
timestamps (epoch milliseconds) as integers; JS string operations as operations
on Lean strings; each `Math.random()` call as one value of an ambient stream
`rand : Nat -> Rat`; promise rejection as `Except.error`.
-/

namespace Wellness

/-- Data model from src/services/api.ts (interface Alert, lines 38-45).
The `timestamp` ISO string is modelled as the epoch-millisecond integer it
serializes; nothing in the pages computes on its textual form. -/
structure Alert where
  id : String
  type : String
  message : String
  location : String
  timestamp : ℤ
  severity : String
deriving DecidableEq

/-- Data model from src/services/api.ts (interface Location, lines 47-55). -/
structure Location where
  id : String
  village : String
  district : String
  state : String
  latitude : ℚ
  longitude : ℚ
  status : String
deriving DecidableEq

/-- Data model from src/services/api.ts (interface Reading, lines 57-64). -/
structure Reading where
  id : String
  location : String
  ph : ℚ
  turbidity : ℚ
  temperature : ℚ
  timestamp : ℤ
deriving DecidableEq

/-- JS `String.prototype.toLowerCase` restricted to the ASCII statuses the
pages compare: lowercases every character. -/
def toLowerStr (s : String) : String :=
  String.mk (s.data.map Char.toLower)

/-- An axios request config, reduced to the parts the request interceptor
touches: the target url and the `Authorization` header slot. -/
structure RequestConfig where
  url : String
  authorization : Option String
deriving DecidableEq

/-- Request interceptor from src/services/api.ts lines 13-19: read the stored
token and set `Authorization: Bearer <token>` behind the JS truthiness guard
`if (token)`, which holds only for a non-null, non-empty string; otherwise
return the config untouched. -/
def requestInterceptor (token : Option String) (config : RequestConfig) : RequestConfig :=
  match token with
  | some t =>
      if t = "" then config
      else { config with authorization := some ("Bearer " ++ t) }
  | none => config

/-- The part of an axios error response the interceptor reads: its HTTP
status. -/
structure AxiosResponseInfo where
  status : Nat
deriving DecidableEq

/-- An axios transport error; `response` is `none` when the request never got
a response (`error.response?` is undefined). -/
structure AxiosError where
  response : Option AxiosResponseInfo
deriving DecidableEq

/-- The browser state the response interceptor mutates: the stored
`auth_token` in localStorage and `window.location.href`. -/
structure ClientState where
  authToken : Option String
  href : String
deriving DecidableEq

/-- Response error interceptor from src/services/api.ts lines 22-31: when the
error carries status 401, remove the stored token and navigate to `/login`;
in every case return the rejected error unchanged. -/
def responseErrorInterceptor (error : AxiosError) (st : ClientState) :
    ClientState × Except AxiosError Unit :=
  if error.response.map AxiosResponseInfo.status = some 401 then
    ({ st with authToken := none, href := "/login" }, Except.error error)
  else
    (st, Except.error error)

/-- The state the Login page's submit handler touches: the stored token, the
current route and the list of toast notification titles shown so far. -/
structure LoginState where
  authToken : Option String
  route : String
  toasts : List String
deriving DecidableEq

/-- Login page handleSubmit (Login.tsx lines 217-240), after the login call
resolved or rejected: on success store the returned token under `auth_token`,
toast a success message and navigate to `/alerts`; on failure only toast the
failure message, leaving token and route untouched. -/
def handleSubmit (result : Except AxiosError String) (st : LoginState) : LoginState :=
  match result with
  | Except.ok token =>
      { st with
        authToken := some token
        toasts := st.toasts ++ ["Login successful"]
        route := "/alerts" }
  | Except.error _ =>
      { st with toasts := st.toasts ++ ["Login failed"] }

/-- Hard-coded fallback alerts from Alerts.tsx fetchAlerts (catch branch,
lines 27-52); `nowMs` is `Date.now()` at the moment the catch runs, so the
record timestamps depend on the run. -/
def alertsFallback (nowMs : ℤ) : List Alert :=
  [ { id := "1", type := "critical", severity := "critical",
      message := "Water pH level extremely low (4.2)",
      location := "Riverside Village, District A",
      timestamp := nowMs },
    { id := "2", type := "warning", severity := "warning",
      message := "High turbidity detected (85 NTU)",
      location := "Mountain Springs, District B",
      timestamp := nowMs - 3600000 },
    { id := "3", type := "info", severity := "info",
      message := "System maintenance scheduled",
      location := "Central Processing Unit",
      timestamp := nowMs - 7200000 } ]

/-- fetchAlerts (Alerts.tsx lines 15-56) reduced to the state it leaves in
`alerts`: the response data on success, the fallback on failure. -/
def fetchAlerts (result : Except AxiosError (List Alert)) (nowMs : ℤ) : List Alert :=
  match result with
  | Except.ok data => data
  | Except.error _ => alertsFallback nowMs

/-- Critical summary count, Alerts.tsx line 110. -/
def criticalCount (alerts : List Alert) : ℕ :=
  (alerts.filter (fun a => a.severity == "critical")).length

/-- Warning summary count, Alerts.tsx line 126. -/
def warningCount (alerts : List Alert) : ℕ :=
  (alerts.filter (fun a => a.severity == "warning")).length

/-- Info summary count, Alerts.tsx line 142. -/
def infoCount (alerts : List Alert) : ℕ :=
  (alerts.filter (fun a => a.severity == "info")).length

/-- Hard-coded fallback locations from Locations.tsx fetchLocations (catch
branch, lines 28-56); fully fixed, no run-dependent field. -/
def locationsFallback : List Location :=
  [ { id := "1", village := "Riverside Village", district := "District A",
      state := "Maharashtra", latitude := 19.0760, longitude := 72.8777,
      status := "active" },
    { id := "2", village := "Mountain Springs", district := "District B",
      state := "Maharashtra", latitude := 19.1136, longitude := 72.8697,
      status := "warning" },
    { id := "3", village := "Valley View", district := "District C",
      state := "Maharashtra", latitude := 19.0896, longitude := 72.8656,
      status := "inactive" } ]

/-- fetchLocations (Locations.tsx lines 16-60) reduced to the state it leaves
in `locations`. -/
def fetchLocations (result : Except AxiosError (List Location)) : List Location :=
  match result with
  | Except.ok data => data
  | Except.error _ => locationsFallback

/-- getStatusColor, Locations.tsx lines 66-77: badge class chosen by the
lowercased status. -/
def getStatusColor (status : String) : String :=
  match toLowerStr status with
  | "active" => "bg-status-success text-white"
  | "warning" => "bg-status-warning text-white"
  | "inactive" => "bg-muted text-muted-foreground"
  | _ => "bg-muted text-muted-foreground"

/-- Active summary count, Locations.tsx line 146 (exact string equality). -/
def activeCount (locations : List Location) : ℕ :=
  (locations.filter (fun l => l.status == "active")).length

/-- Warning summary count, Locations.tsx line 162 (exact string equality). -/
def warningLocCount (locations : List Location) : ℕ :=
  (locations.filter (fun l => l.status == "warning")).length

/-- Inactive summary count, Locations.tsx line 178 (exact string equality). -/
def inactiveCount (locations : List Location) : ℕ :=
  (locations.filter (fun l => l.status == "inactive")).length

/-- Fallback readings generator from Readings.tsx fetchReadings (catch branch,
lines 30-46): 24 records generated back one hour at a time from `nowMs` and
then reversed; the three `Math.random()` calls of iteration `i` are the stream
values `rand (3*i)`, `rand (3*i+1)`, `rand (3*i+2)`. -/
def readingsFallback (nowMs : ℤ) (rand : ℕ → ℚ) : List Reading :=
  ((List.range 24).map (fun i =>
    { id := "reading-" ++ toString i
      location :=
        if i % 3 = 0 then "Riverside Village"
        else if i % 3 = 1 then "Mountain Springs"
        else "Valley View"
      ph := 6.5 + rand (3 * i) * 2
      turbidity := 20 + rand (3 * i + 1) * 60
      temperature := 22 + rand (3 * i + 2) * 8
      timestamp := nowMs - (i : ℤ) * 3600000 })).reverse

/-- fetchReadings (Readings.tsx lines 18-50) reduced to the state it leaves in
`readings`. -/
def fetchReadings (result : Except AxiosError (List Reading)) (nowMs : ℤ)
    (rand : ℕ → ℚ) : List Reading :=
  match result with
  | Except.ok data => data
  | Except.error _ => readingsFallback nowMs rand

/-- filteredReadings, Readings.tsx lines 57-59. -/
def filteredReadings (selectedLocation : String) (readings : List Reading) : List Reading :=
  if selectedLocation = "all" then readings
  else readings.filter (fun r => r.location == selectedLocation)

/-- The record of the three displayed averages. -/
structure Averages where
  ph : ℚ
  turbidity : ℚ
  temperature : ℚ
deriving DecidableEq

/-- The `reduce((sum, r) => sum + f r, 0)` sums of Readings.tsx lines 74-76. -/
def sumBy (f : Reading → ℚ) (readings : List Reading) : ℚ :=
  readings.foldl (fun sum r => sum + f r) 0

/-- currentAverages, Readings.tsx lines 73-77: per-field means over the
filtered readings when that list is non-empty, all zeros otherwise. -/
def currentAverages (selectedLocation : String) (readings : List Reading) : Averages :=
  let fr := filteredReadings selectedLocation readings
  if 0 < fr.length then
    { ph := sumBy Reading.ph fr / fr.length
      turbidity := sumBy Reading.turbidity fr / fr.length
      temperature := sumBy Reading.temperature fr / fr.length }
  else
    { ph := 0, turbidity := 0, temperature := 0 }

/-- Number.prototype.toFixed(2) (Readings.tsx line 126) modelled numerically:
the two-decimal rounding of the value the page renders. -/
def toFixed2 (q : ℚ) : ℚ :=
  ((round (q * 100) : ℤ) : ℚ) / 100

/-- Three sample readings at a single location with pH values 6, 7, 8: the
configuration of spec §8's two-decimal-average example. -/
def phDemo : List Reading :=
  [ { id := "r1", location := "Riverside Village", ph := 6, turbidity := 20,
      temperature := 25, timestamp := 0 },
    { id := "r2", location := "Riverside Village", ph := 7, turbidity := 30,
      temperature := 26, timestamp := 1 },
    { id := "r3", location := "Riverside Village", ph := 8, turbidity := 40,
      temperature := 27, timestamp := 2 } ]

/-- Four sample alerts with severities critical, warning, critical, info: the
configuration of spec §8's summary-count example. -/
def severityDemo : List Alert :=
  [ { id := "a1", type := "critical", severity := "critical", message := "m1",
      location := "L1", timestamp := 0 },
    { id := "a2", type := "warning", severity := "warning", message := "m2",
      location := "L2", timestamp := 1 },
    { id := "a3", type := "critical", severity := "critical", message := "m3",
      location := "L3", timestamp := 2 },
    { id := "a4", type := "info", severity := "info", message := "m4",
      location := "L4", timestamp := 3 } ]

/-- A sample location whose status carries an uppercase letter. -/
def locUpper : Location :=
  { id := "1", village := "Riverside Village", district := "District A",
    state := "Maharashtra", latitude := 0, longitude := 0, status := "Active" }

/-- The same sample location with the status spelled in lowercase. -/
def locLower : Location :=
  { locUpper with status := "active" }

/-! Helper lemmas shared by the claim theorems. -/

/-- Folding `+ f r` from any accumulator is the accumulator plus the sum of
the mapped list. -/
theorem foldl_add_eq (f : Reading → ℚ) (a : ℚ) (rs : List Reading) :
    List.foldl (fun sum r => sum + f r) a rs = a + (rs.map f).sum := by
  induction rs generalizing a with
  | nil => simp
  | cons r rs ih => simp [ih, add_assoc]

/-- The source's `reduce`-style sum agrees with the mathematical list sum. -/
theorem sumBy_eq_sum (f : Reading → ℚ) (rs : List Reading) :
    sumBy f rs = (rs.map f).sum := by
  simp [sumBy, foldl_add_eq]

/-- Length of a filtered cons in terms of whether the head passes. -/
theorem filter_length_cons {α : Type} (p : α → Bool) (x : α) (xs : List α) :
    (List.filter p (x :: xs)).length =
      (if p x then 1 else 0) + (List.filter p xs).length := by
  by_cases hp : p x <;> simp [List.filter_cons, hp, Nat.add_comm]

/-! Claim theorems. -/

/-- C1 counterexample: the Readings fallback is not one fixed dataset — two
failing runs that differ only in the values `Math.random()` returned populate
the page with different lists. -/
theorem readingsFallback_not_fixed :
    fetchReadings (Except.error { response := none }) 0 (fun _ => 0) ≠
      fetchReadings (Except.error { response := none }) 0 (fun _ => 1) := by
  intro h
  simp only [fetchReadings, readingsFallback] at h
  rw [List.reverse_inj, List.map_inj_left] at h
  have h0 := h 0 (by simp)
  have hph := congrArg Reading.ph h0
  norm_num at hph

/-- C1 amended: on every fetch failure each page populates a non-empty
fallback (3 alerts, 3 locations, 24 readings); the Locations fallback is the
one fixed hard-coded dataset, while the Alerts and Readings fallbacks depend
on the current time and (for Readings) on the random values drawn. -/
theorem fallback_nonempty (nowMs : ℤ) (rand : ℕ → ℚ) (e : AxiosError) :
    (fetchAlerts (Except.error e) nowMs).length = 3 ∧
    fetchLocations (Except.error e) = locationsFallback ∧
    locationsFallback.length = 3 ∧
    (fetchReadings (Except.error e) nowMs rand).length = 24 := by
  refine ⟨?_, rfl, rfl, ?_⟩ <;>
    simp [fetchAlerts, alertsFallback, fetchReadings, readingsFallback]

/-- C2 counterexample: a location whose status is spelled `Active` gets the
active badge style (the badge compares case-insensitively) yet is not counted
by the Active summary card, which compares with exact string equality. -/
theorem statusCount_case_sensitive :
    getStatusColor ("Active") = getStatusColor ("active") ∧
    activeCount [locUpper] = 0 ∧ activeCount [locLower] = 1 :=
  ⟨by decide, rfl, rfl⟩

/-- C2 amended: the status badge styling is case-insensitive (it depends only
on the lowercased status), but the per-status summary counts compare the
status field by exact, case-sensitive string equality with the lowercase
labels. -/
theorem status_classification_amended :
    (∀ s t : String, toLowerStr s = toLowerStr t →
      getStatusColor s = getStatusColor t) ∧
    (∀ (l : Location) (ls : List Location),
      activeCount (l :: ls) = (if l.status = "active" then 1 else 0) + activeCount ls ∧
      warningLocCount (l :: ls) = (if l.status = "warning" then 1 else 0) + warningLocCount ls ∧
      inactiveCount (l :: ls) = (if l.status = "inactive" then 1 else 0) + inactiveCount ls) := by
  constructor
  · intro s t h
    unfold getStatusColor
    rw [h]
  · intro l ls
    refine ⟨?_, ?_, ?_⟩ <;>
      simp [activeCount, warningLocCount, inactiveCount, filter_length_cons]

/-- Witness for the amended C2 theorem at concrete inputs. -/
theorem status_classification_amended_witness :
    getStatusColor ("ACTIVE") = getStatusColor ("Active") :=
  status_classification_amended.1 ("ACTIVE") ("Active") (by decide)

/-- C3: a 401 response makes the interceptor clear the stored token and
navigate to the login view; any other error leaves the client state untouched;
in every case the same underlying error is returned rejected. -/
theorem response401_clears_token_and_redirects (e : AxiosError) (st : ClientState) :
    (e.response.map AxiosResponseInfo.status = some 401 →
      responseErrorInterceptor e st =
        ({ st with authToken := none, href := "/login" }, Except.error e)) ∧
    (e.response.map AxiosResponseInfo.status ≠ some 401 →
      responseErrorInterceptor e st = (st, Except.error e)) := by
  constructor <;> intro h <;> simp [responseErrorInterceptor, h]

/-- Witness for C3 at a concrete 401 error and client state. -/
theorem response401_witness :
    responseErrorInterceptor { response := some { status := 401 } }
        { authToken := some ("tok"), href := "/alerts" } =
      ({ authToken := none, href := "/login" },
        Except.error { response := some { status := 401 } }) :=
  (response401_clears_token_and_redirects { response := some { status := 401 } }
    { authToken := some ("tok"), href := "/alerts" }).1 rfl

/-- C4: for a selected location other than `all`, the displayed dataset is
exactly the readings whose location equals the selection, and each displayed
average is the arithmetic mean over that reduced list only. -/
theorem filter_and_averages_over_selection (sel : String) (rs : List Reading)
    (hsel : sel ≠ "all") :
    filteredReadings sel rs = rs.filter (fun r => r.location == sel) ∧
    (filteredReadings sel rs ≠ [] →
      currentAverages sel rs =
        { ph := ((filteredReadings sel rs).map Reading.ph).sum / (filteredReadings sel rs).length
          turbidity := ((filteredReadings sel rs).map Reading.turbidity).sum / (filteredReadings sel rs).length
          temperature := ((filteredReadings sel rs).map Reading.temperature).sum / (filteredReadings sel rs).length }) := by
  constructor
  · simp [filteredReadings, hsel]
  · intro hne
    have hlen : 0 < (filteredReadings sel rs).length := List.length_pos.mpr hne
    simp [currentAverages, hlen, sumBy_eq_sum]

/-- Witness for C4 at a concrete selection and reading list. -/
theorem filter_and_averages_witness :
    filteredReadings ("Riverside Village") phDemo =
      phDemo.filter (fun r => r.location == "Riverside Village") :=
  (filter_and_averages_over_selection ("Riverside Village") phDemo (by decide)).1

/-- C5: on the demo alert list with severities critical, warning, critical,
info the summary counts are 2, 1, 1, and in general each count is the number
of alerts whose severity equals that label. -/
theorem severity_counts_correct :
    (criticalCount severityDemo = 2 ∧ warningCount severityDemo = 1 ∧
      infoCount severityDemo = 1) ∧
    ∀ alerts : List Alert,
      criticalCount alerts = alerts.countP (fun a => a.severity == "critical") ∧
      warningCount alerts = alerts.countP (fun a => a.severity == "warning") ∧
      infoCount alerts = alerts.countP (fun a => a.severity == "info") := by
  refine ⟨⟨rfl, rfl, rfl⟩, fun alerts => ?_⟩
  simp [criticalCount, warningCount, infoCount, List.countP_eq_length_filter]

/-- C6: on three readings with pH 6, 7, 8 at one location the displayed
average pH is 7, unchanged by the two-decimal rounding of the renderer; in
general the displayed average pH is the arithmetic mean over the filtered
readings. -/
theorem average_ph_two_decimal :
    (currentAverages ("Riverside Village") phDemo).ph = 7 ∧
    toFixed2 ((currentAverages ("Riverside Village") phDemo).ph) = 7 ∧
    ∀ (sel : String) (rs : List Reading), filteredReadings sel rs ≠ [] →
      (currentAverages sel rs).ph =
        ((filteredReadings sel rs).map Reading.ph).sum / (filteredReadings sel rs).length := by
  have hfr : filteredReadings ("Riverside Village") phDemo = phDemo := rfl
  have havg : (currentAverages ("Riverside Village") phDemo).ph = 7 := by
    simp only [currentAverages, hfr]
    norm_num [phDemo, sumBy]
  refine ⟨havg, ?_, ?_⟩
  · rw [havg]
    have h700 : ((7:ℚ) * 100) = 700 := by norm_num
    rw [toFixed2, h700, round_ofNat]
    norm_num
  · intro sel rs hne
    have hlen : 0 < (filteredReadings sel rs).length := List.length_pos.mpr hne
    simp [currentAverages, hlen, sumBy_eq_sum]

/-- Witness for the general part of C6 at a concrete reading list. -/
theorem average_ph_two_decimal_witness :
    (currentAverages ("all") phDemo).ph =
      ((filteredReadings ("all") phDemo).map Reading.ph).sum /
        (filteredReadings ("all") phDemo).length :=
  average_ph_two_decimal.2.2 ("all") phDemo (by simp [filteredReadings, phDemo])

/-- C7: a resolved login stores the returned token (non-empty when the server
returns a non-empty one) and navigates from the login view to `/alerts`; a
rejected login leaves token and route unchanged and appends the failure
toast. -/
theorem login_submit_behavior (st : LoginState) :
    (∀ token : String, token ≠ "" →
      (handleSubmit (Except.ok token) st).authToken = some token ∧
      (handleSubmit (Except.ok token) st).authToken ≠ some "" ∧
      (handleSubmit (Except.ok token) st).route = "/alerts" ∧
      (handleSubmit (Except.ok token) st).route ≠ "/login") ∧
    (∀ e : AxiosError,
      (handleSubmit (Except.error e) st).authToken = st.authToken ∧
      (handleSubmit (Except.error e) st).route = st.route ∧
      (handleSubmit (Except.error e) st).toasts = st.toasts ++ ["Login failed"]) := by
  constructor
  · intro token htok
    exact ⟨rfl, by simp [handleSubmit, htok], rfl, by simp [handleSubmit]⟩
  · intro e
    exact ⟨rfl, rfl, rfl⟩

/-- Witness for C7 at a concrete token, error and login state. -/
theorem login_submit_behavior_witness :
    (handleSubmit (Except.ok ("demo-token"))
        { authToken := none, route := "/login", toasts := [] }).authToken =
      some ("demo-token") ∧
    (handleSubmit (Except.error { response := none })
        { authToken := none, route := "/login", toasts := [] }).route = "/login" :=
  ⟨((login_submit_behavior { authToken := none, route := "/login", toasts := [] }).1
      ("demo-token") (by decide)).1,
   ((login_submit_behavior { authToken := none, route := "/login", toasts := [] }).2
      { response := none }).2.1⟩

/-- C8: with a stored truthy (non-empty) token every request leaves the
interceptor carrying `Authorization: Bearer <token>`; with no stored token —
and likewise with a stored empty string, which the source's `if (token)`
guard treats as absent — a header-less request stays header-less. -/
theorem request_auth_header (config : RequestConfig) :
    (∀ token : String, token ≠ "" →
      (requestInterceptor (some token) config).authorization =
        some ("Bearer " ++ token)) ∧
    (config.authorization = none →
      (requestInterceptor none config).authorization = none ∧
      (requestInterceptor (some ("")) config).authorization = none) := by
  constructor
  · intro token htok
    simp [requestInterceptor, htok]
  · intro h
    refine ⟨?_, ?_⟩ <;> simpa [requestInterceptor] using h

/-- Witness for C8 at a concrete config with and without a token. -/
theorem request_auth_header_witness :
    (requestInterceptor (some ("abc"))
        { url := "/api/alerts", authorization := none }).authorization =
      some ("Bearer " ++ "abc") ∧
    (requestInterceptor none
        { url := "/api/alerts", authorization := none }).authorization = none :=
  ⟨(request_auth_header { url := "/api/alerts", authorization := none }).1 ("abc")
      (by decide),
   ((request_auth_header { url := "/api/alerts", authorization := none }).2 rfl).1⟩

/-- C9: when the filtered reading list is empty the page displays all-zero
averages; the mean's division is behind the non-emptiness guard. -/
theorem empty_filtered_averages_zero (sel : String) (rs : List Reading)
    (h : filteredReadings sel rs = []) :
    currentAverages sel rs = { ph := 0, turbidity := 0, temperature := 0 } := by
  simp [currentAverages, h]

/-- Witness for C9 on the empty reading list. -/
theorem empty_filtered_averages_zero_witness :
    currentAverages ("all") [] = { ph := 0, turbidity := 0, temperature := 0 } :=
  empty_filtered_averages_zero ("all") [] rfl

/-- C10: selecting `all` in the Readings filter is the identity on the
fetched list. -/
theorem filter_all_identity (rs : List Reading) :
    filteredReadings ("all") rs = rs := rfl

end Wellness
